import Mathlib

/-!
Verification development for the PGxNormalizer repository.

The Python sources are shallowly embedded:

* string primitives of Python (strip, split, replace, substring test,
  int conversion) are re-implemented as structurally recursive Lean
  functions over character lists so that every definition evaluates by
  kernel reduction;
* `dict` values become association lists looked up by key;
* code that can raise a Python exception is modelled in the
  `Except String` monad; the catch-all handlers of the sources become
  explicit matches on the `Except` value;
* `NaN` cells of the pandas data frame (empty input fields) become
  `Option String` with `none` for `NaN`.
-/

set_option autoImplicit false
set_option maxRecDepth 4000

namespace PGx

/-! ## Python string primitives -/

/-- Character list version of string prefix testing, used by the embedding of
Python `str.startswith` and of substring search. -/
def listStartsWith : List Char → List Char → Bool
  | [], _ => true
  | _ :: _, [] => false
  | p :: ps, c :: cs => p == c && listStartsWith ps cs

/-- Python `pat in s` (substring containment). -/
def pyInStr (pat s : String) : Bool :=
  go s.data
where
  go : List Char → Bool
    | [] => listStartsWith pat.data []
    | c :: rest => listStartsWith pat.data (c :: rest) || go rest

/-- Python `s.startswith (p)`. -/
def pyStartsWith (s p : String) : Bool :=
  listStartsWith p.data s.data

/-- Python whitespace stripping from the front of a character list. -/
def dropLeadingWs (l : List Char) : List Char :=
  l.dropWhile Char.isWhitespace

/-- Python `s.strip ()`: whitespace removed from both ends.  (The sources only
ever strip ASCII whitespace, which `Char.isWhitespace` covers.) -/
def pyStrip (s : String) : String :=
  ⟨((dropLeadingWs s.data).reverse.dropWhile Char.isWhitespace).reverse⟩

/-- Python `s[n:]` (character based). -/
def pyDrop (s : String) (n : Nat) : String :=
  ⟨s.data.drop n⟩

/-- Split a character list at every occurrence of the character `c`,
Python `s.split (c)` semantics: splitting the empty string yields one
empty field. -/
def splitOnChar (c : Char) : List Char → List (List Char)
  | [] => [[]]
  | x :: xs =>
    match splitOnChar c xs with
    | [] => [[]]
    | first :: rest =>
      if x == c then [] :: first :: rest else (x :: first) :: rest

/-- Python `s.split (sep)` for a one-character separator. -/
def pySplit (s : String) (c : Char) : List String :=
  (splitOnChar c s.data).map (fun l => ⟨l⟩)

/-- One step of Python `str.replace`: fuel-indexed so that the recursion is
structural (the fuel is always at least the length of the scanned list, so
the `0, l => l` clause is never reached when called through `pyReplace`).
Matches are replaced left to right without overlap, as in Python. -/
def replaceFuel (pat repl : List Char) : Nat → List Char → List Char
  | _, [] => []
  | 0, l => l
  | fuel + 1, x :: xs =>
    if listStartsWith pat (x :: xs) then
      repl ++ replaceFuel pat repl fuel (xs.drop (pat.length - 1))
    else
      x :: replaceFuel pat repl fuel xs

/-- Python `s.replace (pat, repl)` for a non-empty pattern (every pattern used
by the sources is non-empty; for an empty pattern the string is returned
unchanged). -/
def pyReplace (s pat repl : String) : String :=
  match pat.data with
  | [] => s
  | _ :: _ => ⟨replaceFuel pat.data repl.data s.data.length s.data⟩

/-- Digits of a character list read as a natural number accumulator. -/
def digitsToNatAux (acc : Nat) : List Char → Nat
  | [] => acc
  | c :: cs => digitsToNatAux (acc * 10 + (c.toNat - 48)) cs

/-- Value of an all-digit character list. -/
def digitsToNat (l : List Char) : Nat :=
  digitsToNatAux 0 l

/-- Python `s.isdigit ()` for the ASCII digits the sources deal with. -/
def pyIsDigit (s : String) : Bool :=
  s.data.all Char.isDigit && !(s.data.isEmpty)

/-- Python `int (s)`: optional sign after stripping whitespace, then a
non-empty run of digits; anything else raises `ValueError`. -/
def pyIntOfString (s : String) : Except String Int :=
  let t := (pyStrip s).data
  match t with
  | '-' :: rest =>
    if rest.all Char.isDigit && !rest.isEmpty then
      Except.ok (-(digitsToNat rest : Int))
    else
      Except.error "ValueError: invalid literal for int"
  | '+' :: rest =>
    if rest.all Char.isDigit && !rest.isEmpty then
      Except.ok (digitsToNat rest : Int)
    else
      Except.error "ValueError: invalid literal for int"
  | _ =>
    if t.all Char.isDigit && !t.isEmpty then
      Except.ok (digitsToNat t : Int)
    else
      Except.error "ValueError: invalid literal for int"

/-- Python `s.lower ()` (ASCII). -/
def pyLower (s : String) : String :=
  ⟨s.data.map Char.toLower⟩

/-- Python `sep.join (parts)`. -/
def pyJoin (sep : String) : List String → String
  | [] => ""
  | [x] => x
  | x :: xs => x ++ sep ++ pyJoin sep xs

/-- Stable insertion used by the embedding of Python `list.sort`. -/
def insertLe {α : Type} (le : α → α → Bool) (x : α) : List α → List α
  | [] => [x]
  | y :: ys => if le x y then x :: y :: ys else y :: insertLe le x ys

/-- Stable sort (Python `list.sort` is stable). -/
def stableSort {α : Type} (le : α → α → Bool) : List α → List α
  | [] => []
  | x :: xs => insertLe le x (stableSort le xs)

/-- Python `d.get (k)` on a `dict` represented as an association list with
distinct keys. -/
def pyDictGet {α : Type} (d : List (String × α)) (k : String) : Option α :=
  match d with
  | [] => none
  | (k2, v) :: rest => if k2 = k then some v else pyDictGet rest k

/-- Python `d[k] = v`: replace the binding if the key exists, append
otherwise. -/
def pyDictSet {α : Type} (d : List (String × α)) (k : String) (v : α) :
    List (String × α) :=
  match d with
  | [] => [(k, v)]
  | (k2, w) :: rest =>
    if k2 = k then (k2, v) :: rest else (k2, w) :: pyDictSet rest k v

/-- Python `os.path.basename` for the forward-slash paths used here. -/
def pyBasename (p : String) : String :=
  match (splitOnChar '/' p.data).getLast? with
  | some l => ⟨l⟩
  | none => ""

/-! ## Data model (src/standard_formats.py)

`StandardizedGeneCall` and its nested records are Python `TypedDict`s.  The
embedding keeps exactly the fields this repository reads or writes; declared
optional fields never touched by any code path (genotype, zygosity,
haplotype strings, structural variants, tool confidence, ...) are omitted,
since no embedded operation can observe them.  Two extra optional fields,
`normalized_functional_status` and `predicted_phenotype`, model the keys the
consensus normalizer adds to the selected call dictionary at run time. -/

/-- One reported SNP/indel (`VariantReported`).  `none` models a key stored
with Python `None`, as the ALDY parser does for absent data. -/
structure VariantReported where
  rsid : Option String := none
  location : Option String := none
  ref_allele : Option String := none
  alt_allele : Option String := none
  quality_score : Option Nat := none
  allele_assignment : Option String := none
  tool_specific_flags : Option String := none
  deriving Repr, DecidableEq

/-- A raw allele label paired with its copy identifier
(`RawAlleleComponent`).  The ALDY parser only ever stores `int` copy
identifiers (built through `int (...)` on a digit string), so the copy
identifier is a `Nat` here; the name cell can be `NaN` (`none`). -/
structure RawAlleleComponent where
  raw_allele_name : Option String
  allele_copy_id : Nat
  deriving Repr, DecidableEq

/-- The tool-specific payload (`RawToolOutput`) with the fields this
repository populates and consumes. -/
structure RawToolOutput where
  diplotype_string : String := ""
  copy_number_raw : Option Nat := none
  comments_raw : Option String := none
  variants_reported : List VariantReported := []
  aldy_solution_id : Option String := none
  aldy_alleles_in_solution_raw_string : Option String := none
  aldy_alleles_parsed : List RawAlleleComponent := []
  deriving Repr, DecidableEq

/-- The canonical call (`StandardizedGeneCall`).  The four mandatory strings
are plain `String`s, matching the `TypedDict` contract that every parser
obeys; the last two fields model the dictionary keys added by
`GeneCallNormalizer.normalize` (absent, i.e. `none`, on parser output). -/
structure StandardizedGeneCall where
  sample_id : String
  gene : String
  tool_name : String
  reference_genome : String
  input_file : Option String := none
  raw_tool_output : RawToolOutput
  normalized_functional_status : Option String := none
  predicted_phenotype : Option String := none
  deriving Repr, DecidableEq

/-! ## Allele knowledge base (src/data/pharmvar_manager.py) -/

/-- One entry of a gene's `definitions` table.  `maps_to = some t` models a
dictionary that contains the key `maps_to` (an alias entry); `none` models a
primary definition entry (its `variant_details` and flags are never read by
`get_normalized_allele`, so they are not represented). -/
structure AlleleDefEntry where
  maps_to : Option String
  deriving Repr, DecidableEq

/-- The per-gene payload of the processed PharmVar JSON: the `definitions`
dictionary.  (Entries produced by `load_pharmvar.py` always contain a
`definitions` key, so the gene value is never a falsy Python object.) -/
structure GeneData where
  definitions : List (String × AlleleDefEntry)
  deriving Repr, DecidableEq

/-- The processed PharmVar database: its `genes` mapping.  (The `metadata`
block is never read by the manager's lookup methods.) -/
structure PharmVarDB where
  genes : List (String × GeneData)
  deriving Repr, DecidableEq

/-- `PharmVarManager._allele_functionality_map`, transcribed verbatim from
src/data/pharmvar_manager.py lines 23-83. -/
def alleleFunctionalityMap : List (String × List (String × String)) :=
  [ ("CYP2D6",
      [ ("*1", "Normal Function"), ("*2", "Normal Function"),
        ("*10", "Decreased Function"),
        ("*4", "No Function"), ("*5", "No Function"), ("*6", "No Function"),
        ("*xN", "Increased Function"),
        ("UNKNOWN", "Unknown") ]),
    ("CYP2C9",
      [ ("*1", "Normal Function"), ("*2", "Decreased Function"),
        ("*3", "No Function"), ("UNKNOWN", "Unknown") ]),
    ("CYP2C19",
      [ ("*1", "Normal Function"), ("*2", "No Function"),
        ("*3", "No Function"), ("*17", "Increased Function"),
        ("UNKNOWN", "Unknown") ]),
    ("CYP2B6",
      [ ("*1", "Normal Function"), ("*6", "Decreased Function"),
        ("*18", "No Function"), ("UNKNOWN", "Unknown") ]),
    ("CYP3A5",
      [ ("*1", "Normal Function"), ("*3", "No Function"),
        ("UNKNOWN", "Unknown") ]),
    ("TPMT",
      [ ("*1", "Normal Function"), ("*2", "Decreased Function"),
        ("*3A", "No Function"), ("*3B", "No Function"),
        ("*3C", "No Function"), ("UNKNOWN", "Unknown") ]),
    ("DPYD",
      [ ("*1", "Normal Function"), ("*2A", "No Function"),
        ("UNKNOWN", "Unknown") ]),
    ("UGT1A1",
      [ ("*1", "Normal Function"), ("*6", "Decreased Function"),
        ("*28", "Decreased Function"), ("UNKNOWN", "Unknown") ]),
    ("SLCO1B1",
      [ ("*1A", "Normal Function"), ("*5", "Decreased Function"),
        ("*15", "Decreased Function"), ("UNKNOWN", "Unknown") ]),
    ("CYP3A4",
      [ ("*1", "Normal Function"), ("*22", "Decreased Function"),
        ("UNKNOWN", "Unknown") ]),
    ("VKORC1",
      [ ("*1", "Normal Function"), ("rs9923231", "Decreased Function"),
        ("UNKNOWN", "Unknown") ]),
    ("F5",
      [ ("*1", "Normal Function"), ("rs6025", "Increased Function"),
        ("UNKNOWN", "Unknown") ]),
    ("CYP1A2",
      [ ("*1", "Normal Function"), ("*1F", "Increased Function"),
        ("*1C", "Decreased Function"), ("UNKNOWN", "Unknown") ]) ]

/-- The canonicalization both tiers of `get_normalized_allele` apply:
`raw_allele.replace (gene_name, ...).replace (star, ...).strip ()` and
re-prefixing with a star when the result does not start with one
(src/data/pharmvar_manager.py lines 142-144 and 149-151). -/
def canonicalizeAllele (gene_name raw_allele : String) : String :=
  let normalized_form := pyStrip (pyReplace (pyReplace raw_allele gene_name "") "*" "")
  if pyStartsWith normalized_form "*" then normalized_form
  else "*" ++ normalized_form

/-- `PharmVarManager.get_normalized_allele` (src/data/pharmvar_manager.py
lines 121-167): empty-input short circuit, then the three resolution tiers
(exact definition lookup, canonicalized lookup, functionality-map key
lookup), with `UNKNOWN` as the final sentinel.  Total: the Python body can
raise no exception on string inputs. -/
def get_normalized_allele (db : PharmVarDB) (gene_name raw_allele : String) :
    String :=
  if gene_name = "" ∨ raw_allele = "" then "UNKNOWN"
  else
    match pyDictGet db.genes gene_name with
    | none => "UNKNOWN"
    | some gene_data =>
      match pyDictGet gene_data.definitions raw_allele with
      | some entry =>
        match entry.maps_to with
        | some target => target
        | none => canonicalizeAllele gene_name raw_allele
      | none =>
        let normalized_form := canonicalizeAllele gene_name raw_allele
        match pyDictGet gene_data.definitions normalized_form with
        | some entry =>
          match entry.maps_to with
          | some target => target
          | none => normalized_form
        | none =>
          match pyDictGet alleleFunctionalityMap gene_name with
          | some gene_map =>
            match pyDictGet gene_map raw_allele with
            | some _ => raw_allele
            | none => "UNKNOWN"
          | none => "UNKNOWN"

/-- The fallback chain of `get_allele_functionality` after the direct lookup
has failed (src/data/pharmvar_manager.py lines 185-193): the duplication
rule fires only when the gene is CYP2D6 and the original (not lowercased)
string contains a lowercase x — the case-insensitive inner test is only
reached through that case-sensitive outer test. -/
def functionalityFallback (gene_name : String)
    (gene_map : List (String × String)) (normalized_allele : String) :
    String :=
  if gene_name = "CYP2D6" ∧ pyInStr "x" normalized_allele then
    if pyInStr "x" (pyLower normalized_allele) then
      (pyDictGet gene_map "*xN").getD "Unknown"
    else
      (pyDictGet gene_map "UNKNOWN").getD "Unknown"
  else
    (pyDictGet gene_map "UNKNOWN").getD "Unknown"

/-- `PharmVarManager.get_allele_functionality` (src/data/pharmvar_manager.py
lines 170-193).  `if functionality:` is a Python truthiness test, hence the
explicit guard against the empty string. -/
def get_allele_functionality (gene_name normalized_allele : String) :
    String :=
  match pyDictGet alleleFunctionalityMap gene_name with
  | none => "Unknown"
  | some gene_map =>
    match pyDictGet gene_map normalized_allele with
    | some functionality =>
      if functionality = "" then
        functionalityFallback gene_name gene_map normalized_allele
      else functionality
    | none => functionalityFallback gene_name gene_map normalized_allele

/-- The hypothesis of claim C5: the (gene, allele) pair is absent from all
three resolution tiers of `get_normalized_allele`. -/
def absentFromAllTiers (db : PharmVarDB) (gene_name raw_allele : String) :
    Bool :=
  (match pyDictGet db.genes gene_name with
   | some gene_data =>
     (pyDictGet gene_data.definitions raw_allele).isNone &&
       (pyDictGet gene_data.definitions
         (canonicalizeAllele gene_name raw_allele)).isNone
   | none => true) &&
  (match pyDictGet alleleFunctionalityMap gene_name with
   | some gene_map => (pyDictGet gene_map raw_allele).isNone
   | none => true)

/-! ## Consensus normalizer (src/normalizer/gene_call_normalizer.py)

`GeneCallNormalizer.normalize` is embedded in the `Except String` monad:
the module forgets to import `sys`, so the solution-id sort key
`lambda x: int (x.get (...).get (..., sys.maxsize))` raises `NameError`
whenever a partition is sorted — Python evaluates the default argument of
`dict.get` before performing the lookup, and `list.sort` applies the key
function to every element of a non-empty list. -/

/-- The loop body of the flagged/other partition for one ALDY call
(src/normalizer/gene_call_normalizer.py lines 116-121): walk the reported
variants in order, stopping at the first whose flag string contains
`NORMAL`.  A flag stored as Python `None` raises
`TypeError` when tested with `in` (the parser stores `None` when a variant
carries no status, functionality or code token). -/
def variantsHaveNormal : List VariantReported → Except String Bool
  | [] => Except.ok false
  | v :: rest =>
    match v.tool_specific_flags with
    | none => Except.error "TypeError: argument of type NoneType is not iterable"
    | some flags =>
      if pyInStr "NORMAL" flags then Except.ok true
      else variantsHaveNormal rest

/-- Partition of the candidate list into (`normal_solutions`,
`other_solutions`) (src/normalizer/gene_call_normalizer.py lines 88-129):
an ALDY call goes to the flagged partition exactly when one of its reported
variants has `NORMAL` in its flag string; every non-ALDY call goes to the
other partition without its variants being inspected. -/
def partitionSolutions :
    List StandardizedGeneCall →
    Except String (List StandardizedGeneCall × List StandardizedGeneCall)
  | [] => Except.ok ([], [])
  | call :: rest =>
    if call.tool_name = "ALDY" then
      match variantsHaveNormal call.raw_tool_output.variants_reported with
      | Except.error e => Except.error e
      | Except.ok has_normal_status =>
        match partitionSolutions rest with
        | Except.error e => Except.error e
        | Except.ok (normal_solutions, other_solutions) =>
          Except.ok
            (if has_normal_status then
              (call :: normal_solutions, other_solutions)
            else
              (normal_solutions, call :: other_solutions))
    else
      match partitionSolutions rest with
      | Except.error e => Except.error e
      | Except.ok (normal_solutions, other_solutions) =>
        Except.ok (normal_solutions, call :: other_solutions)

/-- A Python value that can flow into `int (...)` inside the sort key. -/
inductive PyScalar where
  | str (v : String)
  | int (v : Int)
  deriving Repr, DecidableEq

/-- `sys.maxsize`, the default argument of the `dict.get` in the sort key
lambdas (src/normalizer/gene_call_normalizer.py lines 134 and 139).  The
module never imports `sys`, so evaluating the name raises `NameError`. -/
def sysMaxsizeDefault : Except String PyScalar :=
  Except.error "NameError: name sys is not defined"

/-- Python `int (...)` on the scalar produced by the lookup. -/
def pyIntScalar : PyScalar → Except String Int
  | PyScalar.str v => pyIntOfString v
  | PyScalar.int v => Except.ok v

/-- The sort key
`lambda x: int (x.get (raw_tool_output, ...).get (aldy_solution_id, sys.maxsize))`.
Python evaluates the default argument before the lookup, so the `NameError`
fires for every call, present solution id or not. -/
def solutionSortKey (x : StandardizedGeneCall) : Except String Int :=
  match sysMaxsizeDefault with
  | Except.error e => Except.error e
  | Except.ok dflt =>
    pyIntScalar
      (match x.raw_tool_output.aldy_solution_id with
       | some s => PyScalar.str s
       | none => dflt)

/-- `solutions.sort (key = ...)`: Python computes the key of every element
first (aborting on the first exception), then sorts stably. -/
def pySortBySolutionId (solutions : List StandardizedGeneCall) :
    Except String (List StandardizedGeneCall) :=
  match solutions.mapM
      (fun c =>
        match solutionSortKey c with
        | Except.error e => Except.error e
        | Except.ok k => Except.ok (k, c)) with
  | Except.error e => Except.error e
  | Except.ok keyed =>
    Except.ok ((stableSort (fun a b => decide (a.1 ≤ b.1)) keyed).map (·.2))

/-- The enrichment applied to the selected call
(src/normalizer/gene_call_normalizer.py lines 152-153): exactly two keys
are written, both constants. -/
def enrichBest (best_solution : StandardizedGeneCall) : StandardizedGeneCall :=
  { best_solution with
    normalized_functional_status := some "Normal Function (Inferred)"
    predicted_phenotype := some "Normal Metabolizer (Inferred)" }

/-- `GeneCallNormalizer.normalize` (src/normalizer/gene_call_normalizer.py
lines 50-157): `Except.ok none` models a Python `None` return (empty input,
or inconsistent sample/gene); `Except.error` models an exception escaping
the method (it has no handler). -/
def normalize (gene_calls : List StandardizedGeneCall) :
    Except String (Option StandardizedGeneCall) :=
  match gene_calls with
  | [] => Except.ok none
  | first_call :: _ =>
    if gene_calls.any
        (fun call =>
          !(call.sample_id == first_call.sample_id &&
            call.gene == first_call.gene)) then
      Except.ok none
    else
      match partitionSolutions gene_calls with
      | Except.error e => Except.error e
      | Except.ok (normal_solutions, other_solutions) =>
        if normal_solutions ≠ [] then
          match pySortBySolutionId normal_solutions with
          | Except.error e => Except.error e
          | Except.ok sorted =>
            match sorted with
            | best :: _ => Except.ok (some (enrichBest best))
            | [] => Except.error "IndexError: list index out of range"
        else if other_solutions ≠ [] then
          match pySortBySolutionId other_solutions with
          | Except.error e => Except.error e
          | Except.ok sorted =>
            match sorted with
            | best :: _ => Except.ok (some (enrichBest best))
            | [] => Except.error "IndexError: list index out of range"
        else
          Except.ok none

/-! ## ALDY parser (src/parsers/aldy_parser.py)

`AldyParser.parse` is embedded as a function of the file's content: `none`
models a missing file, `some lines` the file's stripped-to-be lines.  The
body that runs inside the `try` block is `parseAldyLines`, an
`Except String` computation; `parse` wraps it with the source's catch-all
handlers, which turn every exception into an empty list.

The pandas data frame is modelled as a list of rows; a row is an
association list from column name to cell, where a cell is `none` for `NaN`
(pandas turns the empty field of a `dtype=str` frame into `NaN`).  A
`row.get (c)` whose column is missing altogether is distinguished from a
present-but-`NaN` cell by the outer `Option` of the row lookup. -/

/-- Error-propagating list traversal (Python evaluates left to right,
aborting at the first exception). -/
def exceptMapM {α β : Type} (f : α → Except String β) :
    List α → Except String (List β)
  | [] => Except.ok []
  | a :: as =>
    match f a with
    | Except.error e => Except.error e
    | Except.ok b =>
      match exceptMapM f as with
      | Except.error e => Except.error e
      | Except.ok bs => Except.ok (b :: bs)

/-- State of the line scan of `AldyParser.parse`
(src/parsers/aldy_parser.py lines 84-134). -/
structure ScanState where
  columns : List String := []
  datas : List String := []
  descs : List (String × String) := []
  pendingId : Option String := none
  pendingText : Option String := none
  deriving Repr, DecidableEq

/-- Python truthiness of an optional string (`None` and the empty string
are falsy). -/
def pyTruthyOptStr : Option String → Bool
  | some s => s ≠ ""
  | none => false

/-- The regular expression match
`re.match (hash Solution (digits): (rest), line)`, applied only to lines
already known to start with the `#Solution ` prefix: a non-empty maximal
digit run followed by a colon and a space, the remainder being the
description. -/
def parseSolutionLine (line : String) : Option (String × String) :=
  let rest := pyDrop line 10
  let idChars := rest.data.takeWhile Char.isDigit
  if idChars.isEmpty then none
  else
    match rest.data.drop idChars.length with
    | ':' :: ' ' :: tail => some (⟨idChars⟩, ⟨tail⟩)
    | _ => none

/-- One iteration of the line loop of `AldyParser.parse`
(src/parsers/aldy_parser.py lines 95-134): strip, skip empty lines, header
lines, solution-description lines, collect data lines once a header was
seen (associating a pending description with the solution id of the first
matching data row), and skip data lines seen before any header. -/
def scanLine (st : ScanState) (rawLine : String) : ScanState :=
  let line := pyStrip rawLine
  if line = "" then st
  else if pyStartsWith line "#Sample" then
    { st with columns := (pySplit (pyDrop line 1) '\t').map pyStrip }
  else if pyStartsWith line "#Solution " then
    match parseSolutionLine line with
    | some (solution_id, description) =>
      { st with pendingId := some solution_id, pendingText := some description }
    | none => st
  else if st.columns ≠ [] then
    let st2 := { st with datas := st.datas ++ [line] }
    if pyTruthyOptStr st.pendingId && pyTruthyOptStr st.pendingText then
      match (pySplit line '\t')[2]? with
      | some solution_id_from_data_row =>
        if some solution_id_from_data_row = st.pendingId then
          { st2 with
            descs :=
              pyDictSet st2.descs solution_id_from_data_row
                (st.pendingText.getD "")
            pendingId := none
            pendingText := none }
        else st2
      | none => st2
    else st2
  else st

/-- The whole line scan. -/
def aldyScan (lines : List String) : ScanState :=
  lines.foldl scanLine {}

/-- A pandas row of the `dtype=str` frame: column name to cell, a cell
being `none` for `NaN`. -/
abbrev Row : Type := List (String × Option String)

/-- `pd.read_csv` applied to one collected data line: split on tabs, error
out when a row is wider than the header (pandas `ParserError`), pad a
narrow row with `NaN`, and turn empty fields into `NaN`. -/
def readCsvLine (columns : List String) (line : String) :
    Except String (List (Option String)) :=
  let fields := pySplit line '\t'
  if columns.length < fields.length then
    Except.error "ParserError: too many fields"
  else
    Except.ok
      ((fields ++ List.replicate (columns.length - fields.length) "").map
        (fun f => if f = "" then none else some f))

/-- Attach column names to the cells of a row and append the
`SolutionDescription` column computed from the description dictionary with
the `No Description Found` fillna fallback
(src/parsers/aldy_parser.py lines 148-149). -/
def buildRow (columns : List String) (descs : List (String × String))
    (cells : List (Option String)) : Row :=
  let base : Row := columns.zip cells
  let desc :=
    match (pyDictGet base "SolutionID").join with
    | some sid => (pyDictGet descs sid).getD "No Description Found"
    | none => "No Description Found"
  base ++ [("SolutionDescription", some desc)]

/-- The data-frame construction inside the `try` block: parse every
collected data line (line 145), require the `SolutionID` column for the
description mapping (line 148), then require the `Sample` and `Gene`
group-by columns (line 156); a missing column is a `KeyError` swallowed by
the catch-all handler. -/
def aldyRows (st : ScanState) : Except String (List Row) :=
  match exceptMapM (readCsvLine st.columns) st.datas with
  | Except.error e => Except.error e
  | Except.ok cellRows =>
    if !(st.columns.any (fun c => c == "SolutionID")) then
      Except.error "KeyError: SolutionID"
    else
      let rows := cellRows.map (buildRow st.columns st.descs)
      if !(st.columns.any (fun c => c == "Sample")) ||
          !(st.columns.any (fun c => c == "Gene")) then
        Except.error "KeyError: groupby column"
      else
        Except.ok rows

/-- The `(Sample, Gene, SolutionID)` key of a row; `none` when any of the
three cells is `NaN` (pandas `groupby` drops such rows). -/
def rowKey (r : Row) : Option (String × String × String) :=
  match (pyDictGet r "Sample").join, (pyDictGet r "Gene").join,
      (pyDictGet r "SolutionID").join with
  | some s, some g, some i => some (s, g, i)
  | _, _, _ => none

/-- Lexicographic codepoint comparison of character lists, as Python
compares strings. -/
def listLexLt : List Char → List Char → Bool
  | [], [] => false
  | [], _ :: _ => true
  | _ :: _, [] => false
  | a :: as, b :: bs =>
    if a.toNat < b.toNat then true
    else if b.toNat < a.toNat then false
    else listLexLt as bs

/-- String comparison as Python compares group keys (codepoint order). -/
def strLtB (a b : String) : Bool :=
  listLexLt a.data b.data

/-- Lexicographic order on group-key triples (pandas `groupby` yields its
groups in ascending key order). -/
def keyLE (a b : String × String × String) : Bool :=
  if a.1 = b.1 then
    if a.2.1 = b.2.1 then strLtB a.2.2 b.2.2 || a.2.2 == b.2.2
    else strLtB a.2.1 b.2.1
  else strLtB a.1 b.1

/-- First-occurrence deduplication. -/
def dedupFirstAux {α : Type} [BEq α] (seen : List α) : List α → List α
  | [] => []
  | a :: as =>
    if seen.contains a then dedupFirstAux seen as
    else a :: dedupFirstAux (a :: seen) as

/-- The distinct group keys of the frame, in ascending order — the groups
of `df.groupby (Sample, Gene, SolutionID)`. -/
def aldyKeys (rows : List Row) : List (String × String × String) :=
  stableSort keyLE (dedupFirstAux [] (rows.filterMap rowKey))

/-- `AldyParser._infer_reference_genome_from_location`
(src/parsers/aldy_parser.py lines 33-47). -/
def infer_reference_genome_from_location (location : String) : String :=
  match pyIntOfString location with
  | Except.ok loc_int =>
    if 1000000 ≤ loc_int ∧ loc_int ≤ 250000000 then "GRCh37" else "UNKNOWN"
  | Except.error _ => "UNKNOWN"

/-- `AldyParser._infer_copy_number_from_diplotype`
(src/parsers/aldy_parser.py lines 50-63), applied to the `Major` cell: a
`NaN` argument raises `AttributeError` inside the method (float `nan` has
no `replace`); an empty string short-circuits to `None`; otherwise the
known gene prefixes are removed and the non-empty slash/plus-separated
tokens are counted. -/
def infer_copy_number_from_diplotype (diplotype_string : Option String) :
    Except String (Option Nat) :=
  match diplotype_string with
  | none => Except.error "AttributeError: nan has no attribute replace"
  | some s =>
    if s = "" then Except.ok none
    else
      let cleaned :=
        pyReplace (pyReplace (pyReplace s "CYP2D6" "") "CYP2C9" "") "CYP2C19" ""
      let alleles_list :=
        (((pySplit cleaned '/').flatMap (fun p => pySplit p '+')).map
          pyStrip).filter (fun a => a ≠ "")
      Except.ok (some alleles_list.length)

/-- Accumulator of the per-row loop of a solution group. -/
structure RowAccum where
  variants_reported : List VariantReported := []
  aldy_alleles_parsed : List RawAlleleComponent := []
  deriving Repr, DecidableEq

/-- One iteration of the row loop (src/parsers/aldy_parser.py lines
176-222): collect a `RawAlleleComponent` when the allele cell is truthy
(Python `None` is falsy, `NaN` truthy) and the copy identifier is a digit
string, de-duplicating by the (name, id) pair; collect a
`VariantReported` when the `Location` cell is present, where a
present-but-`NaN` `VariantType` cell raises `AttributeError` (`nan` has no
`split`) while a missing column falls back to the empty default. -/
def processRow (acc : RowAccum) (r : Row) : Except String RowAccum :=
  let current_allele := pyDictGet r "Allele"
  let current_allele_copy_id : Option Nat :=
    match pyDictGet r "AlleleCopyIdentifier" with
    | some (some s) => if pyIsDigit s then some (digitsToNat s.data) else none
    | _ => none
  let alleleTruthy :=
    match current_allele with
    | none => false
    | some none => true
    | some (some s) => s ≠ ""
  let acc :=
    match current_allele_copy_id with
    | some cid =>
      if alleleTruthy then
        let comp : RawAlleleComponent :=
          { raw_allele_name := current_allele.join, allele_copy_id := cid }
        if acc.aldy_alleles_parsed.any (fun c => decide (c = comp)) then acc
        else { acc with aldy_alleles_parsed := acc.aldy_alleles_parsed ++ [comp] }
      else acc
    | none => acc
  match (pyDictGet r "Location").join with
  | none => Except.ok acc
  | some location =>
    if location = "" then Except.ok acc
    else
      match
        (match pyDictGet r "VariantType" with
         | none => Except.ok ""
         | some none =>
           Except.error "AttributeError: nan has no attribute split"
         | some (some s) => Except.ok s) with
      | Except.error e => Except.error e
      | Except.ok variant_type =>
        let variant_type_parts := pySplit variant_type '>'
        let ref_allele := (variant_type_parts[0]?).map pyStrip
        let alt_allele := (variant_type_parts[1]?).map pyStrip
        let tool_flags :=
          (match (pyDictGet r "VariantStatus").join with
           | some s => [s] | none => []) ++
          (match (pyDictGet r "VariantFunctionalityRaw").join with
           | some s => ["FUNC:" ++ s] | none => []) ++
          (match (pyDictGet r "KarolinskaCode").join with
           | some s => ["CODE:" ++ s] | none => [])
        let tool_specific_flags :=
          if tool_flags = [] then none else some (pyJoin "|" tool_flags)
        let quality_score :=
          match (pyDictGet r "Coverage").join with
          | some s => if pyIsDigit s then some (digitsToNat s.data) else none
          | none => none
        let variant_data : VariantReported :=
          { rsid := (pyDictGet r "dbSNP").join
            location := some location
            ref_allele := ref_allele
            alt_allele := alt_allele
            quality_score := quality_score
            allele_assignment := (pyDictGet r "Allele").join
            tool_specific_flags := tool_specific_flags }
        Except.ok { acc with variants_reported := acc.variants_reported ++ [variant_data] }

/-- The row loop of a group. -/
def foldProcessRows (acc : RowAccum) : List Row → Except String RowAccum
  | [] => Except.ok acc
  | r :: rest =>
    match processRow acc r with
    | Except.error e => Except.error e
    | Except.ok acc2 => foldProcessRows acc2 rest

/-- One `(Sample, Gene, SolutionID)` group turned into one
`StandardizedGeneCall` (src/parsers/aldy_parser.py lines 158-247).  The
group's rows keep their file order; the first row provides the
solution-level data.  All stored copy identifiers are naturals, so the
`float (inf)` branch of the component sort key is never taken. -/
def processGroup (filepath : String) (rows : List Row)
    (key : String × String × String) :
    Except String StandardizedGeneCall :=
  match rows.filter (fun r => decide (rowKey r = some key)) with
  | [] => Except.error "IndexError: empty group"
  | first_row :: group_rest =>
    let locStr :=
      match pyDictGet first_row "Location" with
      | some (some s) => s
      | _ => ""
    let ref_genome := infer_reference_genome_from_location locStr
    let aldy_diplotype_string : Option String :=
      match pyDictGet first_row "Major" with
      | none => some ""
      | some cell => cell
    match infer_copy_number_from_diplotype aldy_diplotype_string with
    | Except.error e => Except.error e
    | Except.ok estimated_cn =>
      let aldy_alleles_in_solution_raw_string : Option String :=
        match pyDictGet first_row "Minor" with
        | none => some ""
        | some cell => cell
      match foldProcessRows {} (first_row :: group_rest) with
      | Except.error e => Except.error e
      | Except.ok acc =>
        Except.ok
          { sample_id := key.1
            gene := key.2.1
            tool_name := "ALDY"
            reference_genome := ref_genome
            input_file := some (pyBasename filepath)
            raw_tool_output :=
              { diplotype_string := aldy_diplotype_string.getD ""
                copy_number_raw := estimated_cn
                comments_raw := (pyDictGet first_row "SolutionDescription").join
                variants_reported := acc.variants_reported
                aldy_solution_id := some key.2.2
                aldy_alleles_in_solution_raw_string :=
                  aldy_alleles_in_solution_raw_string
                aldy_alleles_parsed :=
                  stableSort
                    (fun a b => decide (a.allele_copy_id ≤ b.allele_copy_id))
                    acc.aldy_alleles_parsed } }

/-- The body of the `try` block of `AldyParser.parse`
(src/parsers/aldy_parser.py lines 93-247): the line scan, the two early
empty-list returns (header never found, line 136; no data rows, line 139),
the frame construction, and one canonical call per group key. -/
def parseAldyLines (filepath : String) (lines : List String) :
    Except String (List StandardizedGeneCall) :=
  let st := aldyScan lines
  if st.columns = [] then Except.ok []
  else if st.datas = [] then Except.ok []
  else
    match aldyRows st with
    | Except.error e => Except.error e
    | Except.ok rows => exceptMapM (processGroup filepath rows) (aldyKeys rows)

/-- `AldyParser.parse` (src/parsers/aldy_parser.py lines 66-257): a
missing file returns an empty list (line 78), and the catch-all handlers
(lines 249-255) turn every exception of the body into an empty list. -/
def parse (filepath : String) (file : Option (List String)) :
    List StandardizedGeneCall :=
  match file with
  | none => []
  | some lines =>
    match parseAldyLines filepath lines with
    | Except.ok parsed_gene_calls => parsed_gene_calls
    | Except.error _ => []

/-! ## Concrete data used by the claims -/

/-- The two-solution reference-format example file embedded at the bottom of
src/parsers/aldy_parser.py (lines 261-270), line by line. -/
def exampleAldyLines : List String :=
  [ "#Sample\tGene\tSolutionID\tMajor\tMinor\tAlleleCopyIdentifier\tAllele\tLocation\tVariantType\tCoverage\tVariantFunctionalityRaw\tdbSNP\tKarolinskaCode\tVariantStatus",
    "#Solution 1: *1.001, *4, *4.021",
    "NA10860\tCYP2D6\t1\tCYP2D6*1/*4+*4.021\t1.001;4;4.021\t0\t*1.001\t\t\t\t",
    "NA10860\tCYP2D6\t1\tCYP2D6*1/*4+*4.021\t1.001;4;4.021\t1\t*4\t42522612\tC>G\t15\tS486T\trs1135840\tC1\tNORMAL",
    "NA10860\tCYP2D6\t1\tCYP2D6*1/*4+*4.021\t1.001;4;4.021\t2\t*4.021\t42522612\tA>T\t18\tDISRUPTING\trs1234567\tC2\tNOVEL",
    "#Solution 2: *4, *4, *139.001",
    "NA10860\tCYP2D6\t2\tCYP2D6*4/*4+*139.001\t4;139.001;4\t0\t*4\t42522612\tC>G\t15\tS486T\trs1135840\tC3\tNORMAL",
    "NA10860\tCYP2D6\t2\tCYP2D6*4/*4+*139.001\t4;139.001;4\t1\t*4\t42524946\tC>T\t32\tsplicing defect/169frameshift\trs3892097\tC4\tNORMAL",
    "NA10860\tCYP2D6\t2\tCYP2D6*4/*4+*139.001\t4;139.001;4\t2\t*139.001\t42525000\tG>A\t25\tNEUTRAL\trs9876543\tC5\tEXTRA" ]

/-- The data-frame rows of the example file (computed). -/
def exampleRows : List Row :=
  ((aldyRows (aldyScan exampleAldyLines)).toOption).getD []

/-- The canonical calls parsed from the example file (computed). -/
def exampleCalls : List StandardizedGeneCall :=
  ((parseAldyLines "src/parsers/test_aldy_output.tsv" exampleAldyLines).toOption).getD []

/-- A reported variant whose flag string contains the `NORMAL` marker, as
the ALDY parser produces it. -/
def vFlagNormal : VariantReported :=
  { rsid := some "rs1135840"
    location := some "42522612"
    ref_allele := some "C"
    alt_allele := some "G"
    quality_score := some 15
    allele_assignment := some "*4"
    tool_specific_flags := some "NORMAL|FUNC:S486T|CODE:C1" }

/-- A reported variant whose flag string does not contain `NORMAL`. -/
def vFlagNovel : VariantReported :=
  { rsid := some "rs1234567"
    location := some "42522612"
    ref_allele := some "A"
    alt_allele := some "T"
    quality_score := some 18
    allele_assignment := some "*4.021"
    tool_specific_flags := some "NOVEL|FUNC:DISRUPTING|CODE:C2" }

/-- An ALDY candidate with a `NORMAL`-flagged variant and the numerically
larger solution id 2. -/
def callFlaggedId2 : StandardizedGeneCall :=
  { sample_id := "NA10860"
    gene := "CYP2D6"
    tool_name := "ALDY"
    reference_genome := "GRCh37"
    input_file := some "test_aldy_output.tsv"
    raw_tool_output :=
      { diplotype_string := "CYP2D6*4/*4+*139.001"
        aldy_solution_id := some "2"
        variants_reported := [vFlagNormal] } }

/-- An ALDY candidate with no `NORMAL`-flagged variant and solution id 1. -/
def callUnflaggedId1 : StandardizedGeneCall :=
  { sample_id := "NA10860"
    gene := "CYP2D6"
    tool_name := "ALDY"
    reference_genome := "GRCh37"
    input_file := some "test_aldy_output.tsv"
    raw_tool_output :=
      { diplotype_string := "CYP2D6*1/*4+*4.021"
        aldy_solution_id := some "1"
        variants_reported := [vFlagNovel] } }

/-- An unflagged ALDY candidate with solution id 2, for the tie-break
claim. -/
def callOtherId2 : StandardizedGeneCall :=
  { sample_id := "NA10860"
    gene := "CYP2D6"
    tool_name := "ALDY"
    reference_genome := "GRCh37"
    raw_tool_output :=
      { diplotype_string := "CYP2D6*1/*4"
        aldy_solution_id := some "2"
        variants_reported := [vFlagNovel] } }

/-- An unflagged ALDY candidate with solution id 1, for the tie-break
claim. -/
def callOtherId1 : StandardizedGeneCall :=
  { sample_id := "NA10860"
    gene := "CYP2D6"
    tool_name := "ALDY"
    reference_genome := "GRCh37"
    raw_tool_output :=
      { diplotype_string := "CYP2D6*1/*1"
        aldy_solution_id := some "1"
        variants_reported := [] } }

/-- A single well-formed flagged ALDY candidate. -/
def callSingleNormal : StandardizedGeneCall :=
  { sample_id := "NA10860"
    gene := "CYP2D6"
    tool_name := "ALDY"
    reference_genome := "GRCh37"
    raw_tool_output :=
      { diplotype_string := "CYP2D6*1/*4"
        aldy_solution_id := some "1"
        variants_reported := [vFlagNormal] } }

/-- A candidate from a different tool carrying a `NORMAL`-flagged variant. -/
def callOtherTool : StandardizedGeneCall :=
  { sample_id := "NA10860"
    gene := "CYP2D6"
    tool_name := "STARGAZER"
    reference_genome := "GRCh38"
    raw_tool_output :=
      { diplotype_string := "*1/*4"
        aldy_solution_id := some "1"
        variants_reported := [vFlagNormal] } }

/-- A knowledge base with an alias entry whose target is absent from every
tier (the JSON schema of section 6 of the spec admits it). -/
def dbDanglingAlias : PharmVarDB :=
  ⟨[("CYP2D6", ⟨[("ALIASNAME", ⟨some "*77"⟩)]⟩)]⟩

/-- A knowledge base shaped like the loader's output: the alias and its
primary target both present. -/
def dbAliasAndPrimary : PharmVarDB :=
  ⟨[("CYP2D6", ⟨[("CYP2D6*1", ⟨some "*1"⟩), ("*1", ⟨none⟩)]⟩)]⟩

/-- A small knowledge base with one primary CYP2D6 definition. -/
def dbOnePrimary : PharmVarDB :=
  ⟨[("CYP2D6", ⟨[("*1", ⟨none⟩)]⟩)]⟩

/-! ## Helper lemmas -/

theorem exceptMapM_ok_length {α β : Type} (f : α → Except String β) :
    ∀ (l : List α) (r : List β), exceptMapM f l = Except.ok r →
      r.length = l.length := by
  intro l
  induction l with
  | nil =>
    intro r h
    simp only [exceptMapM] at h
    cases h
    rfl
  | cons a as ih =>
    intro r h
    simp only [exceptMapM] at h
    cases hfa : f a with
    | error e => rw [hfa] at h; cases h
    | ok b =>
      rw [hfa] at h
      cases hrest : exceptMapM f as with
      | error e => rw [hrest] at h; cases h
      | ok bs =>
        rw [hrest] at h
        cases h
        simp [ih bs hrest]

theorem exceptMapM_ok_map {α β γ : Type} (f : α → Except String β)
    (g : β → γ) (k : α → γ)
    (hfk : ∀ a b, f a = Except.ok b → g b = k a) :
    ∀ (l : List α) (r : List β), exceptMapM f l = Except.ok r →
      r.map g = l.map k := by
  intro l
  induction l with
  | nil =>
    intro r h
    simp only [exceptMapM] at h
    cases h
    rfl
  | cons a as ih =>
    intro r h
    simp only [exceptMapM] at h
    cases hfa : f a with
    | error e => rw [hfa] at h; cases h
    | ok b =>
      rw [hfa] at h
      cases hrest : exceptMapM f as with
      | error e => rw [hrest] at h; cases h
      | ok bs =>
        rw [hrest] at h
        cases h
        simp [hfk a b hfa, ih bs hrest]

theorem processGroup_ok_fields (filepath : String) (rows : List Row)
    (key : String × String × String) (c : StandardizedGeneCall)
    (h : processGroup filepath rows key = Except.ok c) :
    c.sample_id = key.1 ∧ c.gene = key.2.1 ∧
      c.raw_tool_output.aldy_solution_id = some key.2.2 := by
  unfold processGroup at h
  cases hfil : rows.filter (fun r => decide (rowKey r = some key)) with
  | nil => rw [hfil] at h; cases h
  | cons fr rest =>
    rw [hfil] at h
    dsimp only at h
    cases hcn : infer_copy_number_from_diplotype
        (match pyDictGet fr "Major" with
         | none => some ""
         | some cell => cell) with
    | error e => rw [hcn] at h; cases h
    | ok cn =>
      rw [hcn] at h
      cases hfold : foldProcessRows {} (fr :: rest) with
      | error e => rw [hfold] at h; cases h
      | ok acc =>
        rw [hfold] at h
        cases h
        exact ⟨rfl, rfl, rfl⟩

theorem scanLine_columns_of_no_header (st : ScanState) (l : String)
    (h : pyStartsWith (pyStrip l) "#Sample" = false) :
    (scanLine st l).columns = st.columns := by
  unfold scanLine
  by_cases h1 : pyStrip l = ""
  · simp [h1]
  · simp only [if_neg h1, h, Bool.false_eq_true, if_false]
    by_cases h2 : pyStartsWith (pyStrip l) "#Solution " = true
    · simp only [if_pos h2]
      cases hp : parseSolutionLine (pyStrip l) with
      | none => rfl
      | some p => rfl
    · simp only [if_neg h2]
      by_cases h3 : st.columns ≠ []
      · simp only [if_pos h3]
        by_cases h4 :
            (pyTruthyOptStr st.pendingId && pyTruthyOptStr st.pendingText) = true
        · simp only [h4, if_true]
          cases h5 : (pySplit (pyStrip l) '\t')[2]? with
          | none => rfl
          | some sid =>
            by_cases h6 : some sid = st.pendingId
            · simp only [if_pos h6]
            · simp only [if_neg h6]
        · simp only [h4, Bool.false_eq_true, if_false]
      · simp only [if_neg h3]

theorem aldyScan_columns_of_no_header :
    ∀ (lines : List String) (st : ScanState),
      lines.all (fun l => !(pyStartsWith (pyStrip l) "#Sample")) = true →
      (List.foldl scanLine st lines).columns = st.columns := by
  intro lines
  induction lines with
  | nil => intro st _; rfl
  | cons l rest ih =>
    intro st h
    simp only [List.all_cons, Bool.and_eq_true, Bool.not_eq_true'] at h
    simp only [List.foldl_cons]
    rw [ih (scanLine st l) h.2, scanLine_columns_of_no_header st l h.1]

theorem splitOnChar_ne_nil (c : Char) : ∀ l : List Char, splitOnChar c l ≠ [] := by
  intro l
  induction l with
  | nil => simp [splitOnChar]
  | cons x xs ih =>
    unfold splitOnChar
    cases hs : splitOnChar c xs with
    | nil => exact absurd hs ih
    | cons first rest =>
      intro hcontra
      simp only [] at hcontra
      split at hcontra <;> cases hcontra

theorem pySplit_ne_nil (s : String) (c : Char) : pySplit s c ≠ [] := by
  unfold pySplit
  intro hcontra
  rw [List.map_eq_nil_iff] at hcontra
  exact splitOnChar_ne_nil c s.data hcontra

theorem pySortBySolutionId_nonempty_error (l : List StandardizedGeneCall)
    (hl : l ≠ []) :
    pySortBySolutionId l = Except.error "NameError: name sys is not defined" := by
  cases l with
  | nil => exact absurd rfl hl
  | cons x xs => rfl

/-! ## Claim theorems -/

/-- Claim C5: `get_normalized_allele` is total (it is a plain function in
this embedding, since its Python body cannot raise on string inputs); a
gene/allele pair absent from all three resolution tiers yields exactly the
sentinel `UNKNOWN`, and an empty gene or empty allele short-circuits to
`UNKNOWN`. -/
theorem claim5_unknown_sentinel_totality (db : PharmVarDB)
    (gene_name raw_allele : String) :
    ((gene_name = "" ∨ raw_allele = "") →
      get_normalized_allele db gene_name raw_allele = "UNKNOWN")
  ∧ (absentFromAllTiers db gene_name raw_allele = true →
      get_normalized_allele db gene_name raw_allele = "UNKNOWN") := by
  constructor
  · intro h
    simp only [get_normalized_allele, if_pos h]
  · intro h
    by_cases hemp : gene_name = "" ∨ raw_allele = ""
    · simp only [get_normalized_allele, if_pos hemp]
    · unfold absentFromAllTiers at h
      cases hgd : pyDictGet db.genes gene_name with
      | none => simp [get_normalized_allele, if_neg hemp, hgd]
      | some gene_data =>
        rw [hgd] at h
        simp only [Bool.and_eq_true, Option.isNone_iff_eq_none] at h
        obtain ⟨⟨h1, h2⟩, h3⟩ := h
        cases hfm : pyDictGet alleleFunctionalityMap gene_name with
        | none => simp [get_normalized_allele, if_neg hemp, hgd, h1, h2, hfm]
        | some gene_map =>
          rw [hfm] at h3
          simp only [Option.isNone_iff_eq_none] at h3
          simp [get_normalized_allele, if_neg hemp, hgd, h1, h2, hfm, h3]

/-- Witness for claim C5 at concrete inputs: the empty-gene short circuit
and a star allele absent from every tier of a small loader-shaped
database. -/
theorem claim5_witness :
    absentFromAllTiers dbOnePrimary "CYP2D6" "*99" = true
  ∧ get_normalized_allele dbOnePrimary "" "*1" = "UNKNOWN"
  ∧ get_normalized_allele dbOnePrimary "CYP2D6" "*99" = "UNKNOWN" :=
  ⟨rfl,
   (claim5_unknown_sentinel_totality dbOnePrimary "" "*1").1 (Or.inl rfl),
   (claim5_unknown_sentinel_totality dbOnePrimary "CYP2D6" "*99").2 rfl⟩

/-- Claim C6 (code bug): the duplication fallback of
`get_allele_functionality` is guarded by the case-sensitive test
`x in normalized_allele` before the case-insensitive test is reached, so
the uppercase duplication marker of `*1X2` never triggers the `*xN` entry
(`Increased Function`) and falls through to the generic `Unknown`, while
the lowercase `*1x2` does trigger it — contradicting the claim, the
source's own comment about `*1X2`/`*2XN` patterns, and its inner
lowercased test. -/
theorem claim6_duplication_marker_case_sensitivity :
    get_allele_functionality "CYP2D6" "*1X2" = "Unknown"
  ∧ get_allele_functionality "CYP2D6" "*1x2" = "Increased Function"
  ∧ pyInStr "x" (pyLower "*1X2") = true :=
  ⟨rfl, rfl, rfl⟩

/-- Claim C7 as stated is false: the schema of the persisted knowledge base
admits an alias entry whose target is absent from every tier, and then the
alias normalizes to the target while the target itself normalizes to
`UNKNOWN`. -/
theorem claim7_counterexample :
    pyDictGet
        ((pyDictGet dbDanglingAlias.genes "CYP2D6").getD ⟨[]⟩).definitions
        "ALIASNAME" = some ⟨some "*77"⟩
  ∧ get_normalized_allele dbDanglingAlias "CYP2D6" "ALIASNAME" = "*77"
  ∧ get_normalized_allele dbDanglingAlias "CYP2D6" "*77" = "UNKNOWN"
  ∧ get_normalized_allele dbDanglingAlias "CYP2D6" "ALIASNAME" ≠
      get_normalized_allele dbDanglingAlias "CYP2D6" "*77" :=
  ⟨rfl, rfl, rfl, by decide⟩

/-- Claim C7 amended: for every gene and alias entry whose `maps_to` target
is a non-empty string that the gene's definition table also holds as a
primary (non-alias) entry and that the canonicalization step leaves
unchanged — exactly the shape `load_pharmvar.py` produces — normalizing
the alias and normalizing the target directly yield the same result. -/
theorem claim7_alias_resolution_equivalence (db : PharmVarDB)
    (gene_name raw_allele target : String) (gene_data : GeneData)
    (hg : gene_name ≠ "") (hr : raw_allele ≠ "") (ht : target ≠ "")
    (hgd : pyDictGet db.genes gene_name = some gene_data)
    (halias : pyDictGet gene_data.definitions raw_allele = some ⟨some target⟩)
    (hprim : pyDictGet gene_data.definitions target = some ⟨none⟩)
    (hcanon : canonicalizeAllele gene_name target = target) :
    get_normalized_allele db gene_name raw_allele =
      get_normalized_allele db gene_name target := by
  unfold get_normalized_allele
  rw [if_neg (by push_neg; exact ⟨hg, hr⟩), if_neg (by push_neg; exact ⟨hg, ht⟩)]
  simp only [hgd, halias, hprim, hcanon]

/-- Witness for claim C7 (amended) at the loader-shaped database holding
the alias `CYP2D6*1 maps-to *1` and the primary entry `*1`. -/
theorem claim7_witness :
    pyDictGet
        ((pyDictGet dbAliasAndPrimary.genes "CYP2D6").getD ⟨[]⟩).definitions
        "CYP2D6*1" = some ⟨some "*1"⟩
  ∧ get_normalized_allele dbAliasAndPrimary "CYP2D6" "CYP2D6*1" =
      get_normalized_allele dbAliasAndPrimary "CYP2D6" "*1" :=
  ⟨rfl,
   claim7_alias_resolution_equivalence dbAliasAndPrimary "CYP2D6" "CYP2D6*1"
     "*1" ⟨[("CYP2D6*1", ⟨some "*1"⟩), ("*1", ⟨none⟩)]⟩
     (by decide) (by decide) (by decide) rfl rfl rfl rfl⟩

/-- Claim C8 as stated is false: a string already in normalized star form
(`canonicalizeAllele` leaves `*99` unchanged) whose gene/allele pair is
absent from every tier normalizes to `UNKNOWN`, not to itself. -/
theorem claim8_counterexample :
    canonicalizeAllele "CYP2D6" "*99" = "*99"
  ∧ get_normalized_allele dbOnePrimary "CYP2D6" "*99" = "UNKNOWN"
  ∧ get_normalized_allele dbOnePrimary "CYP2D6" "*99" ≠ "*99" :=
  ⟨rfl, rfl, by decide⟩

/-- Claim C8 amended: normalizing an already-normalized star-allele string
returns it unchanged provided the string is canonicalization-invariant and
either occurs in the gene's definition table as a primary (non-alias)
entry, or is absent from the table but is a key of the gene's
functionality map (the third tier). -/
theorem claim8_idempotence_on_known_star_alleles (db : PharmVarDB)
    (gene_name s : String) (gene_data : GeneData)
    (hg : gene_name ≠ "") (hs : s ≠ "")
    (hgd : pyDictGet db.genes gene_name = some gene_data)
    (hcanon : canonicalizeAllele gene_name s = s)
    (hres : pyDictGet gene_data.definitions s = some ⟨none⟩ ∨
      (pyDictGet gene_data.definitions s = none ∧
        ∃ gene_map, pyDictGet alleleFunctionalityMap gene_name = some gene_map ∧
          (pyDictGet gene_map s).isSome = true)) :
    get_normalized_allele db gene_name s = s := by
  unfold get_normalized_allele
  rw [if_neg (by push_neg; exact ⟨hg, hs⟩)]
  cases hres with
  | inl hprim => simp only [hgd, hprim, hcanon]
  | inr hmap =>
    obtain ⟨hnone, gene_map, hgm, hsome⟩ := hmap
    obtain ⟨v, hv⟩ := Option.isSome_iff_exists.mp hsome
    simp only [hgd, hcanon, hnone, hgm, hv]

/-- Witness for claim C8 (amended): the primary-entry tier with `*1` in the
loader-shaped database, and the functionality-map tier with `*10`, which is
absent from that database's definitions but is a CYP2D6 functionality-map
key. -/
theorem claim8_witness :
    get_normalized_allele dbOnePrimary "CYP2D6" "*1" = "*1"
  ∧ get_normalized_allele dbOnePrimary "CYP2D6" "*10" = "*10" :=
  ⟨claim8_idempotence_on_known_star_alleles dbOnePrimary "CYP2D6" "*1"
      ⟨[("*1", ⟨none⟩)]⟩ (by decide) (by decide) rfl rfl (Or.inl rfl),
   claim8_idempotence_on_known_star_alleles dbOnePrimary "CYP2D6" "*10"
      ⟨[("*1", ⟨none⟩)]⟩ (by decide) (by decide) rfl rfl
      (Or.inr ⟨rfl, _, rfl, rfl⟩)⟩

/-- Claim C9: whenever the flagged/other partition step completes, every
member of the flagged (`NORMAL`) partition is an ALDY call, and every
candidate from any other tool ends up in the other partition — even when
one of its reported variants carries the `NORMAL` marker, because the tool
check precedes any inspection of the variants. -/
theorem claim9_only_aldy_in_flagged_partition
    (calls normal_solutions other_solutions : List StandardizedGeneCall)
    (h : partitionSolutions calls =
      Except.ok (normal_solutions, other_solutions)) :
    (∀ c ∈ normal_solutions, c.tool_name = "ALDY")
  ∧ (∀ c ∈ calls, c.tool_name ≠ "ALDY" → c ∈ other_solutions) := by
  induction calls generalizing normal_solutions other_solutions with
  | nil =>
    simp only [partitionSolutions] at h
    cases h
    exact ⟨by simp, by simp⟩
  | cons call rest ih =>
    simp only [partitionSolutions] at h
    by_cases htool : call.tool_name = "ALDY"
    · rw [if_pos htool] at h
      cases hvn : variantsHaveNormal call.raw_tool_output.variants_reported with
      | error e => rw [hvn] at h; cases h
      | ok has_normal_status =>
        rw [hvn] at h
        cases hrest : partitionSolutions rest with
        | error e => rw [hrest] at h; cases h
        | ok p =>
          obtain ⟨ns, os⟩ := p
          rw [hrest] at h
          obtain ⟨ihns, ihos⟩ := ih ns os hrest
          cases has_normal_status with
          | true =>
            simp only [if_true] at h
            cases h
            constructor
            · intro c hc
              cases hc with
              | head => exact htool
              | tail _ hm => exact ihns c hm
            · intro c hc hcne
              cases hc with
              | head => exact absurd htool hcne
              | tail _ hm => exact ihos c hm hcne
          | false =>
            simp only [if_false, Bool.false_eq_true] at h
            cases h
            constructor
            · exact ihns
            · intro c hc hcne
              cases hc with
              | head => exact List.mem_cons_self _ _
              | tail _ hm => exact List.mem_cons_of_mem _ (ihos c hm hcne)
    · rw [if_neg htool] at h
      cases hrest : partitionSolutions rest with
      | error e => rw [hrest] at h; cases h
      | ok p =>
        obtain ⟨ns, os⟩ := p
        rw [hrest] at h
        obtain ⟨ihns, ihos⟩ := ih ns os hrest
        cases h
        constructor
        · exact ihns
        · intro c hc hcne
          cases hc with
          | head => exact List.mem_cons_self _ _
          | tail _ hm => exact List.mem_cons_of_mem _ (ihos c hm hcne)

/-- Witness for claim C9: a STARGAZER candidate whose variant is flagged
`NORMAL` still lands in the other partition, next to an ALDY candidate
that lands in the flagged partition. -/
theorem claim9_witness :
    partitionSolutions [callOtherTool, callSingleNormal] =
      Except.ok ([callSingleNormal], [callOtherTool])
  ∧ callOtherTool.tool_name ≠ "ALDY"
  ∧ callOtherTool ∈ [callOtherTool] :=
  ⟨rfl, by decide,
   (claim9_only_aldy_in_flagged_partition [callOtherTool, callSingleNormal]
       [callSingleNormal] [callOtherTool] rfl).2 callOtherTool
     (List.mem_cons_self _ _) (by decide)⟩

/-- Claim C1 (code bug): with one `NORMAL`-flagged candidate (solution id
2) and one unflagged candidate (solution id 1), the partition step does
place the flagged candidate alone in the flagged partition, but
`normalize` then raises `NameError` instead of returning it: the sort-key
lambda evaluates `sys.maxsize` and the module never imports `sys`. -/
theorem claim1_flagged_preference_crashes :
    partitionSolutions [callFlaggedId2, callUnflaggedId1] =
      Except.ok ([callFlaggedId2], [callUnflaggedId1])
  ∧ normalize [callFlaggedId2, callUnflaggedId1] =
      Except.error "NameError: name sys is not defined" :=
  ⟨rfl, rfl⟩

/-- Claim C2 (code bug): with two unflagged candidates carrying solution
ids 2 and 1, both land in the other partition, and `normalize` raises the
same `NameError` while sorting that partition instead of returning the
id-1 candidate. -/
theorem claim2_tiebreak_crashes :
    partitionSolutions [callOtherId2, callOtherId1] =
      Except.ok ([], [callOtherId2, callOtherId1])
  ∧ normalize [callOtherId2, callOtherId1] =
      Except.error "NameError: name sys is not defined" :=
  ⟨rfl, rfl⟩

/-- Claim C10 (code bug): `normalize` can never return a selected call at
all — every run either returns Python `None` (empty or inconsistent input)
or raises (`NameError` from the missing `sys` import as soon as a
non-empty partition is sorted, or an earlier `TypeError` from a flag stored
as `None`) — so the enrichment of lines 146-157 is unreachable; in
particular a single well-formed flagged candidate produces the
`NameError`. -/
theorem claim10_enrichment_unreachable :
    (∀ calls : List StandardizedGeneCall,
      normalize calls = Except.ok none ∨
        ∃ e, normalize calls = Except.error e)
  ∧ normalize [callSingleNormal] =
      Except.error "NameError: name sys is not defined" := by
  constructor
  · intro calls
    cases calls with
    | nil => left; rfl
    | cons first_call rest =>
      unfold normalize
      dsimp only
      by_cases hcons :
          ((first_call :: rest).any
            (fun call =>
              !(call.sample_id == first_call.sample_id &&
                call.gene == first_call.gene))) = true
      · left; rw [if_pos hcons]
      · rw [if_neg hcons]
        cases hp : partitionSolutions (first_call :: rest) with
        | error e => right; exact ⟨e, rfl⟩
        | ok p =>
          obtain ⟨ns, os⟩ := p
          dsimp only
          by_cases hns : ns ≠ []
          · right
            refine ⟨"NameError: name sys is not defined", ?_⟩
            rw [if_pos hns, pySortBySolutionId_nonempty_error ns hns]
          · rw [if_neg hns]
            by_cases hos : os ≠ []
            · right
              refine ⟨"NameError: name sys is not defined", ?_⟩
              rw [if_pos hos, pySortBySolutionId_nonempty_error os hos]
            · left; rw [if_neg hos]
  · rfl

/-- The header line of the reference ALDY format. -/
def aldyHeaderLine : String :=
  "#Sample\tGene\tSolutionID\tMajor\tMinor\tAlleleCopyIdentifier\tAllele\tLocation\tVariantType\tCoverage\tVariantFunctionalityRaw\tdbSNP\tKarolinskaCode\tVariantStatus"

/-- A file whose single data row has a location but an empty (`NaN`)
variant-type cell: processing it raises `AttributeError` inside the `try`
block. -/
def badVariantLines : List String :=
  [aldyHeaderLine, "S1\tG1\t1\tX*1/*2\t\t\t\t42522612"]

theorem aldyRows_error_of_no_columns (st : ScanState) (h : st.columns = [])
    (rows : List Row) : aldyRows st ≠ Except.ok rows := by
  intro hcontra
  unfold aldyRows at hcontra
  rw [h] at hcontra
  cases hd : st.datas with
  | nil =>
    rw [hd] at hcontra
    simp only [exceptMapM] at hcontra
    simp at hcontra
  | cons d ds =>
    rw [hd] at hcontra
    have hrc : readCsvLine [] d = Except.error "ParserError: too many fields" := by
      unfold readCsvLine
      dsimp only
      rw [if_pos (show ([] : List String).length < (pySplit d '\t').length from
        List.length_pos.mpr (pySplit_ne_nil d '\t'))]
    simp only [exceptMapM, hrc] at hcontra
    exact Except.noConfusion hcontra

/-- Claim C3: `AldyParser.parse` never lets an exception escape — a missing
input file yields an empty list, a file whose header line is never found
yields an empty list, a file with a header but no data rows yields an empty
list, and every exception of the parsing body is caught and also yields an
empty list. -/
theorem claim3_parse_never_throws (filepath : String) (lines : List String) :
    parse filepath none = []
  ∧ (lines.all (fun l => !(pyStartsWith (pyStrip l) "#Sample")) = true →
      parse filepath (some lines) = [])
  ∧ ((aldyScan lines).datas = [] → parse filepath (some lines) = [])
  ∧ (∀ e, parseAldyLines filepath lines = Except.error e →
      parse filepath (some lines) = []) := by
  refine ⟨rfl, fun hall => ?_, fun hdat => ?_, fun e he => ?_⟩
  · have hc : (aldyScan lines).columns = [] :=
      aldyScan_columns_of_no_header lines {} hall
    unfold parse parseAldyLines
    dsimp only
    rw [if_pos hc]
  · unfold parse parseAldyLines
    dsimp only
    by_cases hcols : (aldyScan lines).columns = []
    · rw [if_pos hcols]
    · rw [if_neg hcols, if_pos hdat]
  · unfold parse
    dsimp only
    rw [he]

/-- Witness for claim C3: a missing file, a file with no header line, a
file with only the header, and a file whose body raises `AttributeError`
all parse to the empty list. -/
theorem claim3_witness :
    (["hello world"].all (fun l => !(pyStartsWith (pyStrip l) "#Sample")) = true)
  ∧ parse "f.tsv" none = []
  ∧ parse "f.tsv" (some ["hello world"]) = []
  ∧ (aldyScan [aldyHeaderLine]).datas = []
  ∧ parse "f.tsv" (some [aldyHeaderLine]) = []
  ∧ parseAldyLines "f.tsv" badVariantLines =
      Except.error "AttributeError: nan has no attribute split"
  ∧ parse "f.tsv" (some badVariantLines) = [] :=
  ⟨rfl,
   (claim3_parse_never_throws "f.tsv" ["hello world"]).1,
   (claim3_parse_never_throws "f.tsv" ["hello world"]).2.1 rfl,
   rfl,
   (claim3_parse_never_throws "f.tsv" [aldyHeaderLine]).2.2.1 rfl,
   rfl,
   (claim3_parse_never_throws "f.tsv" badVariantLines).2.2.2
     "AttributeError: nan has no attribute split" rfl⟩

/-- Claim C4: whenever the parsing body succeeds, it produces exactly one
canonical call per `(Sample, Gene, SolutionID)` group of the data frame —
the output is in bijection with the group keys, each call carrying its
group's sample, gene and solution id — and parsing the two-solution
reference example for sample NA10860 and gene CYP2D6 produces exactly two
canonical calls, one per solution. -/
theorem claim4_one_call_per_group (filepath : String) (lines : List String) :
    (∀ rows calls,
      aldyRows (aldyScan lines) = Except.ok rows →
      parseAldyLines filepath lines = Except.ok calls →
      calls.length = (aldyKeys rows).length ∧
      calls.map
          (fun c => (c.sample_id, c.gene, c.raw_tool_output.aldy_solution_id)) =
        (aldyKeys rows).map (fun k => (k.1, k.2.1, some k.2.2)))
  ∧ (parse "src/parsers/test_aldy_output.tsv" (some exampleAldyLines)).length = 2
  ∧ (parse "src/parsers/test_aldy_output.tsv" (some exampleAldyLines)).map
        (fun c => (c.sample_id, c.gene, c.raw_tool_output.aldy_solution_id)) =
      [("NA10860", "CYP2D6", some "1"), ("NA10860", "CYP2D6", some "2")] := by
  refine ⟨?_, by rfl, by rfl⟩
  intro rows calls hrows hcalls
  unfold parseAldyLines at hcalls
  dsimp only at hcalls
  by_cases hcols : (aldyScan lines).columns = []
  · exact absurd hrows (aldyRows_error_of_no_columns _ hcols rows)
  · rw [if_neg hcols] at hcalls
    by_cases hdat : (aldyScan lines).datas = []
    · rw [if_pos hdat] at hcalls
      cases hcalls
      have hrows0 : rows = [] := by
        unfold aldyRows at hrows
        rw [hdat] at hrows
        simp only [exceptMapM] at hrows
        split at hrows
        · cases hrows
        · split at hrows
          · cases hrows
          · cases hrows; rfl
      rw [hrows0]
      exact ⟨rfl, rfl⟩
    · rw [if_neg hdat, hrows] at hcalls
      dsimp only at hcalls
      refine ⟨exceptMapM_ok_length _ _ _ hcalls, ?_⟩
      exact exceptMapM_ok_map _ _ _
        (fun a b hab => by
          obtain ⟨h1, h2, h3⟩ := processGroup_ok_fields filepath rows a b hab
          rw [h1, h2, h3]) _ _ hcalls

/-- Witness for claim C4 (general part) at the reference example: the data
frame and the parsed calls are computed, and the number of calls equals the
number of group keys. -/
theorem claim4_witness :
    aldyRows (aldyScan exampleAldyLines) = Except.ok exampleRows
  ∧ parseAldyLines "src/parsers/test_aldy_output.tsv" exampleAldyLines =
      Except.ok exampleCalls
  ∧ exampleCalls.length = (aldyKeys exampleRows).length :=
  ⟨rfl, rfl,
   ((claim4_one_call_per_group "src/parsers/test_aldy_output.tsv"
        exampleAldyLines).1 exampleRows exampleCalls rfl rfl).1⟩

end PGx
